import Mathlib

/-!
# Campaign result streaming handshake (server/service/endpoint_campaigns.go)

A shallow embedding of `makeStreamDistributedQueryCampaignResultsHandler`:

* the `opt.JSessionID` callback (source lines 81-104), as a function from the
  request's cookies and the outcome of `kolide.RandomText` to the header that
  is added, the log lines and the calls made to `RandomText`;
* the per-session handler (source lines 105-156), as a function from the
  outcomes of the collaborator calls (`conn.ReadAuthToken`, `authViewer`,
  `conn.ReadJSONMessage`, `json.Unmarshal`) to the ordered list of effects the
  handler performs, together with the panic raised, if any.

Conventions of the embedding.

* A Go call returning `(T, error)` is an `Except GoError T`: a nil error comes
  with a usable value. Every collaborator call returns.
* `msg.Data` is an `interface{}`; what it holds at run time is not fixed by
  its static type, so the embedding keeps the cases apart (`DataValue`). The
  unchecked type assertion and the dereference of source line 142 panic on
  the cases Go panics on.
* `defer session.Close(0, "none")` runs when the handler body returns and
  also when it panics, so the close is appended to the effects of the body in
  both cases.
-/

namespace Fleet

/-- The text carried by a Go `error` value. -/
abbrev GoError := String

/-! ## Session affinity cookie (source lines 81-104) -/

/-- The fields of `http.Cookie` the callback reads or writes. -/
structure Cookie where
  Name : String
  Value : String
  Path : String
  MaxAge : Int
deriving DecidableEq, Repr

/-- The request as the callback sees it: the cookies net/http reads from its
`Cookie` header, in header order, each a name and a value. -/
structure Request where
  cookies : List (String × String)
deriving DecidableEq, Repr

/-- The call `req.Cookie(name)`: the first cookie of the request with that name, with
only `Name` and `Value` set; `none` stands for `http.ErrNoCookie`. -/
def Request.Cookie (req : Request) (name : String) : Option Cookie :=
  match req.cookies.find? (fun c => c.1 == name) with
  | some c => some { Name := c.1, Value := c.2, Path := "", MaxAge := 0 }
  | none => none

/-- A value stored in a response header. `cookieString c` is the text
`c.String()` of net/http; the embedding keeps the cookie it serialises. -/
inductive HeaderValue where
  | text (s : String)
  | cookieString (c : Cookie)
deriving DecidableEq, Repr

/-- The type `http.Header` as the ordered list of its (key, value) entries. -/
abbrev Header := List (String × HeaderValue)

/-- The call `header.Add(key, value)`: appends one value under the key. -/
def Header.Add (h : Header) (key : String) (value : HeaderValue) : Header :=
  h ++ [(key, value)]

/-- A value passed to `logger.Log`: a string, or an `error` (nil or not). -/
inductive LogValue where
  | str (s : String)
  | err (e : Option GoError)
deriving DecidableEq, Repr

/-- What one run of the `JSessionID` callback does. -/
structure JSessionResult where
  /-- The response header after the callback. -/
  header : Header
  /-- The arguments of each `logger.Log` call, in order. -/
  logs : List (List LogValue)
  /-- The argument of each `kolide.RandomText` call, in order. -/
  randomTextCalls : List Nat
deriving DecidableEq, Repr

/-- The `opt.JSessionID` callback. `RandomText` is the outcome of
`kolide.RandomText` for a given length; `header` is `rw.Header()` before the
call. -/
def JSessionID (RandomText : Nat → Except GoError String) (header : Header)
    (req : Request) : JSessionResult :=
  -- cookie, err := req.Cookie("JSESSIONID"); if err == http.ErrNoCookie ...
  let (cookie, logs, randomTextCalls) : Cookie × List (List LogValue) × List Nat :=
    match req.Cookie "JSESSIONID" with
    | none =>
      let (id, logs) : String × List (List LogValue) :=
        match RandomText 8 with
        | .error err =>
          ("", [[.str "err", .err (some err), .str "msg", .str "generate JSESSIONID"]])
        | .ok id => (id, [])
      ({ Name := "JSESSIONID", Value := id, Path := "", MaxAge := 0 }, logs, [8])
    | some cookie => (cookie, [], [])
  let cookie := { cookie with Path := "/" }
  let cookie := { cookie with MaxAge := 30 }
  { header := header.Add "Set-Cookie" (.cookieString cookie)
    logs := logs
    randomTextCalls := randomTextCalls }

/-! ## The streaming handler (source lines 105-156) -/

/-- The authenticated viewer: an identity and the result of
`CanPerformActions()`. -/
structure Viewer where
  UserID : Nat
  CanPerformActions : Bool
deriving DecidableEq, Repr

/-- A `context.Context`, as far as the handler is concerned: the viewer it
carries, if any. -/
structure Context where
  viewer : Option Viewer
deriving DecidableEq, Repr

/-- The empty context `context.Background()`. -/
def Context.Background : Context := { viewer := none }

/-- The call `viewer.NewContext(ctx, v)`: the context with the viewer attached. -/
def NewContext (ctx : Context) (v : Viewer) : Context := { ctx with viewer := some v }

/-- A `sockjs.Session`, identified by a number. -/
structure Session where
  id : Nat
deriving DecidableEq, Repr

/-- The `websocket.Conn` wrapping a session. -/
structure Conn where
  Session : Session
deriving DecidableEq, Repr

/-- The contents of a `json.RawMessage`. -/
abbrev RawMessage := List UInt8

/-- What the `interface{}` field `msg.Data` holds at run time. -/
inductive DataValue where
  /-- The nil interface. -/
  | nilInterface
  /-- A `*json.RawMessage`; `none` is the nil pointer of that type. -/
  | rawMessage (p : Option RawMessage)
  /-- A value of any other dynamic type, named by its type. -/
  | other (typeName : String)
deriving DecidableEq, Repr

/-- The message `conn.ReadJSONMessage()` returns. -/
structure JSONMessage where
  Type_ : String
  Data : DataValue
deriving DecidableEq, Repr

/-- The local `info` struct of source lines 139-141. -/
structure Info where
  CampaignID : Nat
deriving DecidableEq, Repr

/-- The outcomes of the collaborator calls of one run. -/
structure Env where
  /-- The outcome of `conn.ReadAuthToken()`. -/
  ReadAuthToken : Except GoError String
  /-- The outcome of `authViewer(context.Background(), jwtKey, token, svc)`, by token. -/
  authViewer : String → Except GoError Viewer
  /-- The outcome of `conn.ReadJSONMessage()`. -/
  ReadJSONMessage : Except GoError JSONMessage
  /-- The outcome of `json.Unmarshal(raw, &info)`: the error, or `info` as filled in. -/
  Unmarshal : RawMessage → Except GoError Info

/-- One effect of the handler, in program order. -/
inductive Event where
  | readAuthToken (conn : Conn)
  | authViewer (token : String)
  | log (keyvals : List LogValue)
  | readJSONMessage (conn : Conn)
  | writeJSONError (conn : Conn) (msg : String)
  | unmarshal (raw : RawMessage)
  | streamCampaignResults (ctx : Context) (conn : Conn) (campaignID : Nat)
  | close (session : Session) (code : Nat) (reason : String)
deriving DecidableEq, Repr

/-- The effects of one run and the panic that ended it, if any. -/
structure Run where
  events : List Event
  panic : Option String
deriving DecidableEq, Repr

/-- The body of the session handler, source lines 108-154, without the
deferred close. -/
def handlerBody (env : Env) (session : Session) : Run :=
  let conn : Conn := { Session := session }
  -- Receive the auth bearer token
  match env.ReadAuthToken with
  | .error err =>
    { events := [.readAuthToken conn,
                 .log [.str "err", .err (some err), .str "msg", .str "failed to read auth token"]]
      panic := none }
  | .ok token =>
    -- Authenticate with the token
    match env.authViewer token with
    | .error err =>
      { events := [.readAuthToken conn, .authViewer token,
                   .log [.str "err", .err (some err), .str "msg", .str "unauthorized viewer"],
                   .writeJSONError conn "unauthorized"]
        panic := none }
    | .ok vc =>
      if !vc.CanPerformActions then
        { events := [.readAuthToken conn, .authViewer token,
                     .log [.str "err", .err none, .str "msg", .str "unauthorized viewer"],
                     .writeJSONError conn "unauthorized"]
          panic := none }
      else
        let ctx := NewContext Context.Background vc
        let pre : List Event := [.readAuthToken conn, .authViewer token, .readJSONMessage conn]
        match env.ReadJSONMessage with
        | .error err =>
          { events := pre ++
              [.log [.str "err", .err (some err), .str "msg", .str "reading select_campaign JSON"],
               .writeJSONError conn "error reading select_campaign"]
            panic := none }
        | .ok msg =>
          if msg.Type_ != "select_campaign" then
            { events := pre ++
                [.log [.str "err", .str "unexpected msg type, expected select_campaign",
                       .str "msg-type", .str msg.Type_],
                 .writeJSONError conn "expected select_campaign"]
              panic := none }
          else
            match msg.Data with
            | .nilInterface =>
              { events := pre
                panic := some "interface conversion: interface \x7b\x7d is nil, not *json.RawMessage" }
            | .other typeName =>
              { events := pre
                panic := some ("interface conversion: interface \x7b\x7d is " ++ typeName
                                ++ ", not *json.RawMessage") }
            | .rawMessage none =>
              { events := pre
                panic := some "invalid memory address or nil pointer dereference" }
            | .rawMessage (some raw) =>
              match env.Unmarshal raw with
              | .error err =>
                { events := pre ++
                    [.unmarshal raw,
                     .log [.str "err", .err (some err), .str "msg",
                           .str "unmarshaling select_campaign data"],
                     .writeJSONError conn "error unmarshaling select_campaign data"]
                  panic := none }
              | .ok info =>
                if info.CampaignID == 0 then
                  { events := pre ++
                      [.unmarshal raw,
                       .log [.str "err", .str "campaign ID not set"],
                       .writeJSONError conn "0 is not a valid campaign ID"]
                    panic := none }
                else
                  { events := pre ++
                      [.unmarshal raw,
                       .streamCampaignResults ctx conn info.CampaignID]
                    panic := none }

/-- The session handler: the body, then the deferred `session.Close(0, "none")`,
which runs whether the body returned or panicked. -/
def handler (env : Env) (session : Session) : Run :=
  let r := handlerBody env session
  { r with events := r.events ++ [.close session 0 "none"] }

/-! ## Observations on a run -/

/-- The data of the messages the handler writes, in order. `WriteJSONError` is
the only write the handler performs. -/
def writes : List Event → List String
  | [] => []
  | .writeJSONError _ msg :: es => msg :: writes es
  | _ :: es => writes es

/-- The calls of the coordinator, in order. -/
def streams : List Event → List (Context × Conn × Nat)
  | [] => []
  | .streamCampaignResults ctx conn id :: es => (ctx, conn, id) :: streams es
  | _ :: es => streams es

/-- The number of `ReadJSONMessage` calls. -/
def secondReads : List Event → Nat
  | [] => 0
  | .readJSONMessage _ :: es => secondReads es + 1
  | _ :: es => secondReads es

/-- The closes of the channel, in order: code and reason. -/
def closes : List Event → List (Nat × String)
  | [] => []
  | .close _ code reason :: es => (code, reason) :: closes es
  | _ :: es => closes es

/-- What the client can see of the handler on the wire: the messages written
and the closes, in order. -/
def wire : List Event → List Event
  | [] => []
  | .writeJSONError conn msg :: es => .writeJSONError conn msg :: wire es
  | .close s code reason :: es => .close s code reason :: wire es
  | _ :: es => wire es

/-- The fixed public reason strings. -/
def publicReasons : List String :=
  ["unauthorized", "error reading select_campaign", "expected select_campaign",
   "error unmarshaling select_campaign data", "0 is not a valid campaign ID"]

/-- Two outcomes of a call that differ at most in the error value. -/
def sameUpToError {α : Type} (a b : Except GoError α) : Prop :=
  match a, b with
  | .ok x, .ok y => x = y
  | .error _, .error _ => True
  | _, _ => False

/-- Two runs' collaborators that differ at most in the error values returned by
the token read, the verifier, the message read and the JSON decoder. -/
def Env.sameUpToErrors (e₁ e₂ : Env) : Prop :=
  sameUpToError e₁.ReadAuthToken e₂.ReadAuthToken ∧
  (∀ token, sameUpToError (e₁.authViewer token) (e₂.authViewer token)) ∧
  sameUpToError e₁.ReadJSONMessage e₂.ReadJSONMessage ∧
  (∀ raw, sameUpToError (e₁.Unmarshal raw) (e₂.Unmarshal raw))

end Fleet

namespace Fleet

/-! ## Concrete runs used as witnesses and counterexamples -/

/-- A viewer permitted to perform actions. -/
def permittedViewer : Viewer := { UserID := 7, CanPerformActions := true }

/-- A viewer whose permission flag is false. -/
def disabledViewer : Viewer := { UserID := 9, CanPerformActions := false }

/-- The bytes of the payload text \x7b"campaign_id":42\x7d. -/
def payload42 : RawMessage :=
  [123, 34, 99, 97, 109, 112, 97, 105, 103, 110, 95, 105, 100, 34, 58, 52, 50, 125]

/-- A decoder outcome: the payload above decodes to campaign 42, anything else
is an error. -/
def decode42 (raw : RawMessage) : Except GoError Info :=
  if raw = payload42 then .ok { CampaignID := 42 } else .error "unexpected end of JSON input"

/-- The success scenario: valid permitted token, then select_campaign 42. -/
def envSuccess : Env :=
  { ReadAuthToken := .ok "T"
    authViewer := fun _ => .ok permittedViewer
    ReadJSONMessage := .ok { Type_ := "select_campaign", Data := .rawMessage (some payload42) }
    Unmarshal := decode42 }

/-- The token cannot be read. -/
def envTokenReadFails : Env :=
  { envSuccess with ReadAuthToken := .error "EOF" }

/-- The verifier rejects the token. -/
def envBadToken : Env :=
  { envSuccess with authViewer := fun _ => .error "token is expired" }

/-- The verifier rejects the token, with another error value. -/
def envForgedToken : Env :=
  { envSuccess with authViewer := fun _ => .error "signature is invalid" }

/-- The token is valid, the viewer may not perform actions. -/
def envDisabled : Env :=
  { envSuccess with authViewer := fun _ => .ok disabledViewer }

/-- The second message cannot be read. -/
def envSecondReadFails : Env :=
  { envSuccess with ReadJSONMessage := .error "parsing msg json" }

/-- The second message has type "ping". -/
def envPing : Env :=
  { envSuccess with ReadJSONMessage := .ok { Type_ := "ping", Data := .rawMessage (some []) } }

/-- The second message is a select_campaign whose data is the nil interface. -/
def envNilData : Env :=
  { envSuccess with ReadJSONMessage := .ok { Type_ := "select_campaign", Data := .nilInterface } }

/-- The second message is a select_campaign whose payload does not decode. -/
def envBadPayload : Env :=
  { envSuccess with
    ReadJSONMessage := .ok { Type_ := "select_campaign", Data := .rawMessage (some [45, 49]) } }

/-- The second message is a select_campaign whose payload decodes to campaign 0. -/
def envZero : Env :=
  { envSuccess with Unmarshal := fun _ => .ok { CampaignID := 0 } }

/-- A request carrying two JSESSIONID cookies after another cookie. -/
def reqWithCookie : Request :=
  { cookies := [("theme", "dark"), ("JSESSIONID", "abc"), ("JSESSIONID", "zzz")] }

/-- A request carrying no JSESSIONID cookie. -/
def reqWithoutCookie : Request := { cookies := [("theme", "dark")] }

/-- A random text source that succeeds. -/
def randomTextOk (_ : Nat) : Except GoError String := .ok "q1w2e3r4"

/-- A random text source that fails. -/
def randomTextFails (_ : Nat) : Except GoError String := .error "entropy unavailable"

/-- The session of the concrete runs. -/
def session1 : Session := { id := 1 }

end Fleet

namespace Fleet

/-! ## Theorems -/

/-- C4: every run of the handler ends with the one close of the channel, with
code 0 and reason "none": the effects are the effects of the body, none of
which is a close, followed by that close, whether the body returned or
panicked. -/
theorem handler_closes_exactly_once (env : Env) (session : Session) :
    (∃ body, (handler env session).events = body ++ [Event.close session 0 "none"] ∧
      closes body = []) ∧
    closes (handler env session).events = [(0, "none")] := by
  refine ⟨⟨(handlerBody env session).events, rfl, ?_⟩, ?_⟩
  all_goals simp only [handler, handlerBody]
  all_goals repeat' split
  all_goals simp [closes]

/-- C1: the select_campaign message is read, or the coordinator invoked, only
in a run where the token read succeeded, the verifier returned no error and
the viewer it returned may perform actions; in every other run there is no
second read and no coordinator call. -/
theorem selection_only_after_authentication (env : Env) (session : Session) :
    ((secondReads (handler env session).events ≠ 0 ∨
        streams (handler env session).events ≠ []) →
      ∃ token vc, env.ReadAuthToken = .ok token ∧ env.authViewer token = .ok vc ∧
        vc.CanPerformActions = true) ∧
    ((¬ ∃ token vc, env.ReadAuthToken = .ok token ∧ env.authViewer token = .ok vc ∧
        vc.CanPerformActions = true) →
      secondReads (handler env session).events = 0 ∧
        streams (handler env session).events = []) := by
  simp only [handler, handlerBody]
  repeat' split
  all_goals simp_all [secondReads, streams]

/-- C1, at the success scenario: the second read happens and the
authentication succeeded. -/
theorem selection_only_after_authentication_witness :
    secondReads (handler envSuccess session1).events ≠ 0 ∧
    ∃ token vc, envSuccess.ReadAuthToken = .ok token ∧ envSuccess.authViewer token = .ok vc ∧
      vc.CanPerformActions = true :=
  ⟨by decide,
   (selection_only_after_authentication envSuccess session1).1 (Or.inl (by decide))⟩

/-- C2: after a successful authentication and a select_campaign message whose
payload decodes, campaign id 0 is answered with the one error message
"0 is not a valid campaign ID" and no coordinator call, and every positive
id n is handed to the coordinator, once, as n, with nothing written. -/
theorem campaign_id_zero_rejected_positive_forwarded (env : Env) (session : Session)
    (token : String) (vc : Viewer) (raw : RawMessage) (n : Nat)
    (hTok : env.ReadAuthToken = .ok token) (hAuth : env.authViewer token = .ok vc)
    (hCan : vc.CanPerformActions = true)
    (hMsg : env.ReadJSONMessage =
      .ok { Type_ := "select_campaign", Data := .rawMessage (some raw) })
    (hDec : env.Unmarshal raw = .ok { CampaignID := n }) :
    (n = 0 →
      writes (handler env session).events = ["0 is not a valid campaign ID"] ∧
      streams (handler env session).events = []) ∧
    (0 < n →
      writes (handler env session).events = [] ∧
      streams (handler env session).events =
        [(NewContext Context.Background vc, { Session := session }, n)]) := by
  simp only [handler, handlerBody]
  repeat' split
  all_goals simp_all [writes, streams]

/-- C2, at the scenario where the payload decodes to campaign 0 and at the one
where it decodes to campaign 42. -/
theorem campaign_id_zero_rejected_positive_forwarded_witness :
    (writes (handler envZero session1).events = ["0 is not a valid campaign ID"] ∧
      streams (handler envZero session1).events = []) ∧
    (writes (handler envSuccess session1).events = [] ∧
      streams (handler envSuccess session1).events =
        [(NewContext Context.Background permittedViewer, { Session := session1 }, 42)]) :=
  ⟨(campaign_id_zero_rejected_positive_forwarded envZero session1 "T" permittedViewer
      payload42 0 rfl rfl rfl rfl rfl).1 rfl,
   (campaign_id_zero_rejected_positive_forwarded envSuccess session1 "T" permittedViewer
      payload42 42 rfl rfl rfl rfl rfl).2 (by decide)⟩

/-- C3: a verification error and a viewer without permission give the same
wire behaviour: exactly one error message "unauthorized", then the close;
neither run panics. -/
theorem unauthorized_causes_indistinguishable (env₁ env₂ : Env) (session : Session)
    (token₁ token₂ : String) (err : GoError) (vc : Viewer)
    (hTok₁ : env₁.ReadAuthToken = .ok token₁) (hAuth₁ : env₁.authViewer token₁ = .error err)
    (hTok₂ : env₂.ReadAuthToken = .ok token₂) (hAuth₂ : env₂.authViewer token₂ = .ok vc)
    (hCan : vc.CanPerformActions = false) :
    wire (handler env₁ session).events = wire (handler env₂ session).events ∧
    wire (handler env₁ session).events =
      [.writeJSONError { Session := session } "unauthorized", .close session 0 "none"] ∧
    (handler env₁ session).panic = none ∧ (handler env₂ session).panic = none := by
  simp only [handler, handlerBody, hTok₁, hAuth₁, hTok₂, hAuth₂, hCan]
  simp [wire]

/-- C3, at a rejected token and at a valid token of a disabled viewer. -/
theorem unauthorized_causes_indistinguishable_witness :
    wire (handler envBadToken session1).events = wire (handler envDisabled session1).events ∧
    wire (handler envBadToken session1).events =
      [.writeJSONError { Session := session1 } "unauthorized", .close session1 0 "none"] ∧
    (handler envBadToken session1).panic = none ∧ (handler envDisabled session1).panic = none :=
  unauthorized_causes_indistinguishable envBadToken envDisabled session1 "T" "T"
    "token is expired" disabledViewer rfl rfl rfl rfl rfl

/-- C5: after a successful authentication, a second message of any type other
than "select_campaign", whatever its data, gets exactly one error message
"expected select_campaign", then the close, and the coordinator is not
invoked. -/
theorem wrong_message_type_rejected (env : Env) (session : Session)
    (token : String) (vc : Viewer) (msg : JSONMessage)
    (hTok : env.ReadAuthToken = .ok token) (hAuth : env.authViewer token = .ok vc)
    (hCan : vc.CanPerformActions = true)
    (hMsg : env.ReadJSONMessage = .ok msg) (hType : msg.Type_ ≠ "select_campaign") :
    wire (handler env session).events =
      [.writeJSONError { Session := session } "expected select_campaign",
       .close session 0 "none"] ∧
    streams (handler env session).events = [] ∧
    (handler env session).panic = none := by
  simp only [handler, handlerBody, hTok, hAuth, hCan, hMsg]
  simp [hType, wire, streams]

/-- C5, at the scenario where the second message has type "ping". -/
theorem wrong_message_type_rejected_witness :
    wire (handler envPing session1).events =
      [.writeJSONError { Session := session1 } "expected select_campaign",
       .close session1 0 "none"] ∧
    streams (handler envPing session1).events = [] ∧
    (handler envPing session1).panic = none :=
  wrong_message_type_rejected envPing session1 "T" permittedViewer
    { Type_ := "ping", Data := .rawMessage (some []) } rfl rfl rfl rfl (by decide)

/-- C6, at a failed read of the bearer token: the handler writes no message at
all; it logs the error, and only the deferred close follows, so the peer gets
no error notification before the channel closes. -/
theorem token_read_failure_writes_nothing :
    envTokenReadFails.ReadAuthToken = .error "EOF" ∧
    writes (handler envTokenReadFails session1).events = [] ∧
    (handler envTokenReadFails session1).events =
      [.readAuthToken { Session := session1 },
       .log [.str "err", .err (some "EOF"), .str "msg", .str "failed to read auth token"],
       .close session1 0 "none"] :=
  ⟨rfl, by decide, by decide⟩

/-- The part of C6 that holds: a failure to read the select_campaign message,
after a successful authentication, is answered with exactly one error message
"error reading select_campaign", then the close, and the coordinator is not
invoked. -/
theorem second_read_failure_notifies (env : Env) (session : Session)
    (token : String) (vc : Viewer) (err : GoError)
    (hTok : env.ReadAuthToken = .ok token) (hAuth : env.authViewer token = .ok vc)
    (hCan : vc.CanPerformActions = true) (hMsg : env.ReadJSONMessage = .error err) :
    wire (handler env session).events =
      [.writeJSONError { Session := session } "error reading select_campaign",
       .close session 0 "none"] ∧
    streams (handler env session).events = [] := by
  simp only [handler, handlerBody, hTok, hAuth, hCan, hMsg]
  simp [wire, streams]

/-- The part of C6 that holds, at a failed second read. -/
theorem second_read_failure_notifies_witness :
    wire (handler envSecondReadFails session1).events =
      [.writeJSONError { Session := session1 } "error reading select_campaign",
       .close session1 0 "none"] ∧
    streams (handler envSecondReadFails session1).events = [] :=
  second_read_failure_notifies envSecondReadFails session1 "T" permittedViewer
    "parsing msg json" rfl rfl rfl rfl

/-- The sibling failure paths all notify: a run whose token read succeeded, that
did not panic and did not reach the coordinator wrote exactly one message,
while a run whose token read failed wrote none. -/
theorem only_token_read_failure_is_silent (env : Env) (session : Session) :
    ((∃ token, env.ReadAuthToken = .ok token) →
      (handler env session).panic = none → streams (handler env session).events = [] →
      (writes (handler env session).events).length = 1) ∧
    ((∃ err, env.ReadAuthToken = .error err) →
      writes (handler env session).events = []) := by
  simp only [handler, handlerBody]
  repeat' split
  all_goals simp_all [writes, streams]

/-- C7, at a select_campaign message whose data is the nil interface (what a
JSON null leaves in the field): the type assertion of source line 142
panics; the handler writes no error message, the decoder is never called,
and only the deferred close follows. -/
theorem nil_data_panics_without_error_message :
    envNilData.ReadJSONMessage = .ok { Type_ := "select_campaign", Data := .nilInterface } ∧
    (handler envNilData session1).panic =
      some "interface conversion: interface \x7b\x7d is nil, not *json.RawMessage" ∧
    writes (handler envNilData session1).events = [] ∧
    (handler envNilData session1).events =
      [.readAuthToken { Session := session1 }, .authViewer "T",
       .readJSONMessage { Session := session1 }, .close session1 0 "none"] :=
  ⟨rfl, by decide, by decide, by decide⟩

/-- The part of C7 that holds: when the data is a non-nil `*json.RawMessage`
and the decoder returns an error, the handler writes exactly one error
message "error unmarshaling select_campaign data", closes and does not invoke
the coordinator. -/
theorem undecodable_payload_rejected (env : Env) (session : Session)
    (token : String) (vc : Viewer) (raw : RawMessage) (err : GoError)
    (hTok : env.ReadAuthToken = .ok token) (hAuth : env.authViewer token = .ok vc)
    (hCan : vc.CanPerformActions = true)
    (hMsg : env.ReadJSONMessage =
      .ok { Type_ := "select_campaign", Data := .rawMessage (some raw) })
    (hDec : env.Unmarshal raw = .error err) :
    wire (handler env session).events =
      [.writeJSONError { Session := session } "error unmarshaling select_campaign data",
       .close session 0 "none"] ∧
    streams (handler env session).events = [] ∧
    (handler env session).panic = none := by
  simp only [handler, handlerBody, hTok, hAuth, hCan, hMsg]
  simp [hDec, wire, streams]

/-- The part of C7 that holds, at a payload the decoder rejects. -/
theorem undecodable_payload_rejected_witness :
    wire (handler envBadPayload session1).events =
      [.writeJSONError { Session := session1 } "error unmarshaling select_campaign data",
       .close session1 0 "none"] ∧
    streams (handler envBadPayload session1).events = [] ∧
    (handler envBadPayload session1).panic = none :=
  undecodable_payload_rejected envBadPayload session1 "T" permittedViewer [45, 49]
    "unexpected end of JSON input" rfl rfl rfl rfl rfl

/-- C9: on the success path the handler writes nothing itself and invokes the
coordinator exactly once, with the connection of this session, the decoded
campaign id and a context carrying exactly the viewer the verifier
returned. -/
theorem success_path_hands_over_once (env : Env) (session : Session)
    (token : String) (vc : Viewer) (raw : RawMessage) (info : Info)
    (hTok : env.ReadAuthToken = .ok token) (hAuth : env.authViewer token = .ok vc)
    (hCan : vc.CanPerformActions = true)
    (hMsg : env.ReadJSONMessage =
      .ok { Type_ := "select_campaign", Data := .rawMessage (some raw) })
    (hDec : env.Unmarshal raw = .ok info) (hId : info.CampaignID ≠ 0) :
    writes (handler env session).events = [] ∧
    (∃ ctx, streams (handler env session).events =
        [(ctx, { Session := session }, info.CampaignID)] ∧ ctx.viewer = some vc) ∧
    (handler env session).events =
      [.readAuthToken { Session := session }, .authViewer token,
       .readJSONMessage { Session := session }, .unmarshal raw,
       .streamCampaignResults (NewContext Context.Background vc) { Session := session }
         info.CampaignID,
       .close session 0 "none"] ∧
    (handler env session).panic = none := by
  simp only [handler, handlerBody, hTok, hAuth, hCan, hMsg]
  simp [hDec, hId, writes, streams, NewContext]

/-- C9, at the success scenario: campaign 42, the permitted viewer. -/
theorem success_path_hands_over_once_witness :
    writes (handler envSuccess session1).events = [] ∧
    (∃ ctx, streams (handler envSuccess session1).events =
        [(ctx, { Session := session1 }, 42)] ∧ ctx.viewer = some permittedViewer) ∧
    (handler envSuccess session1).events =
      [.readAuthToken { Session := session1 }, .authViewer "T",
       .readJSONMessage { Session := session1 }, .unmarshal payload42,
       .streamCampaignResults (NewContext Context.Background permittedViewer)
         { Session := session1 } 42,
       .close session1 0 "none"] ∧
    (handler envSuccess session1).panic = none :=
  success_path_hands_over_once envSuccess session1 "T" permittedViewer payload42
    { CampaignID := 42 } rfl rfl rfl rfl rfl (by decide)

/-- What the handler writes in a run: at most one message, and its data is one
of the fixed public reason strings. -/
theorem writes_are_public (env : Env) (session : Session) :
    (∀ m ∈ writes (handler env session).events, m ∈ publicReasons) ∧
    (writes (handler env session).events).length ≤ 1 := by
  simp only [handler, handlerBody]
  repeat' split
  all_goals simp [writes, publicReasons]

/-- The wire behaviour of a run does not depend on the error values. -/
theorem wire_ignores_error_values (env₁ env₂ : Env) (session : Session)
    (h : env₁.sameUpToErrors env₂) :
    wire (handler env₁ session).events = wire (handler env₂ session).events := by
  obtain ⟨h1, h2, h3, h4⟩ := h
  simp only [handler, handlerBody]
  cases ha : env₁.ReadAuthToken <;> cases hb : env₂.ReadAuthToken <;>
    simp only [sameUpToError, ha, hb] at h1
  · simp [*, wire]
  · subst h1
    rename_i token
    specialize h2 token
    cases hc : env₁.authViewer token <;> cases hd : env₂.authViewer token <;>
      simp only [sameUpToError, hc, hd] at h2
    · simp [*, wire]
    · subst h2
      rename_i vc
      cases hv : vc.CanPerformActions
      · simp [*, wire]
      · cases he : env₁.ReadJSONMessage <;> cases hf : env₂.ReadJSONMessage <;>
          simp only [sameUpToError, he, hf] at h3
        · simp [*, wire]
        · subst h3
          rename_i msg
          by_cases ht : msg.Type_ = "select_campaign"
          · rcases hm : msg.Data with _ | (_ | raw) | _
            · simp [*, wire]
            · simp [*, wire]
            · specialize h4 raw
              cases hg : env₁.Unmarshal raw <;> cases hh : env₂.Unmarshal raw <;>
                simp only [sameUpToError, hg, hh] at h4
              · simp [*, wire]
              · subst h4
                rename_i info
                by_cases hz : info.CampaignID = 0
                · simp [*, wire]
                · simp [*, wire]
            · simp [*, wire]
          · simp [*, wire]

/-- An outcome differs from itself in no way. -/
theorem sameUpToError_refl {α : Type} (a : Except GoError α) : sameUpToError a a := by
  cases a <;> simp [sameUpToError]

/-- The messages written are those seen on the wire. -/
theorem writes_wire (es : List Event) : writes (wire es) = writes es := by
  induction es with
  | nil => rfl
  | cons e es ih => cases e <;> simp [wire, writes, ih]

/-- C10: every message the handler writes is written with `WriteJSONError` and
its data is one of the five fixed strings, at most one is written in a run, and two runs that
differ only in the error values returned by the token read, the verifier, the
message read or the decoder write the same messages and look the same on the
wire. -/
theorem written_text_fixed_and_independent_of_errors (env₁ env₂ : Env) (session : Session)
    (h : env₁.sameUpToErrors env₂) :
    (∀ m ∈ writes (handler env₁ session).events, m ∈ publicReasons) ∧
    (writes (handler env₁ session).events).length ≤ 1 ∧
    writes (handler env₁ session).events = writes (handler env₂ session).events ∧
    wire (handler env₁ session).events = wire (handler env₂ session).events := by
  have hw := wire_ignores_error_values env₁ env₂ session h
  refine ⟨(writes_are_public env₁ session).1, (writes_are_public env₁ session).2, ?_, hw⟩
  rw [← writes_wire (handler env₁ session).events, hw, writes_wire]

/-- C10, at two runs whose verifier rejects the token with different error
values: both write the one message "unauthorized". -/
theorem written_text_fixed_and_independent_of_errors_witness :
    envBadToken.authViewer "T" = .error "token is expired" ∧
    envForgedToken.authViewer "T" = .error "signature is invalid" ∧
    writes (handler envBadToken session1).events = ["unauthorized"] ∧
    writes (handler envBadToken session1).events =
      writes (handler envForgedToken session1).events :=
  ⟨rfl, rfl, by decide,
   (written_text_fixed_and_independent_of_errors envBadToken envForgedToken session1
      ⟨rfl, fun _ => trivial, rfl, fun raw => sameUpToError_refl (decode42 raw)⟩).2.2.1⟩

/-- The lookup `req.Cookie` finds no cookie exactly when the request carries
none of that name. -/
theorem Request.Cookie_eq_none_iff (req : Request) (name : String) :
    req.Cookie name = none ↔ ∀ p ∈ req.cookies, p.1 ≠ name := by
  unfold Request.Cookie
  cases h : req.cookies.find? (fun c => c.1 == name) with
  | none =>
    simp only [true_iff]
    intro p hp
    have := List.find?_eq_none.mp h p hp
    simpa using this
  | some c =>
    simp only [false_iff, reduceCtorEq]
    intro hall
    have hc := List.find?_some h
    have hm := List.mem_of_find?_eq_some h
    exact hall c hm (by simpa using hc)

/-- The lookup `req.Cookie` returns the first cookie of that name. -/
theorem Request.Cookie_first (req : Request) (name v : String)
    (before after : List (String × String))
    (hreq : req.cookies = before ++ (name, v) :: after)
    (hbefore : ∀ p ∈ before, p.1 ≠ name) :
    req.Cookie name = some { Name := name, Value := v, Path := "", MaxAge := 0 } := by
  unfold Request.Cookie
  have hnone : before.find? (fun c => c.1 == name) = none := by
    apply List.find?_eq_none.mpr
    intro p hp
    simpa using hbefore p hp
  rw [hreq, List.find?_append, hnone]
  simp

/-- C8, amended: the callback adds exactly one header, a Set-Cookie of a cookie
named JSESSIONID with path "/" and Max-Age 30; when the request carries
JSESSIONID cookies the value issued is the value of the first of them, in
header order, and `RandomText` is not called; `RandomText` is called, once and
with length 8, exactly when the request carries no JSESSIONID cookie, and then
the value issued is the text it returned, or the empty text when it failed. -/
theorem jsessionid_cookie_refreshed (RandomText : Nat → Except GoError String)
    (header : Header) (req : Request) :
    ∃ c : Cookie,
      (JSessionID RandomText header req).header = header ++ [("Set-Cookie", .cookieString c)] ∧
      c.Name = "JSESSIONID" ∧ c.Path = "/" ∧ c.MaxAge = 30 ∧
      (∀ before v after, req.cookies = before ++ ("JSESSIONID", v) :: after →
        (∀ p ∈ before, p.1 ≠ "JSESSIONID") →
        c.Value = v ∧ (JSessionID RandomText header req).randomTextCalls = []) ∧
      ((JSessionID RandomText header req).randomTextCalls ≠ [] ↔
        ∀ p ∈ req.cookies, p.1 ≠ "JSESSIONID") ∧
      ((∀ p ∈ req.cookies, p.1 ≠ "JSESSIONID") →
        (JSessionID RandomText header req).randomTextCalls = [8] ∧
        (∀ id, RandomText 8 = .ok id → c.Value = id) ∧
        (∀ err, RandomText 8 = .error err → c.Value = "")) := by
  cases hc : req.Cookie "JSESSIONID" with
  | none =>
    have hall := (Request.Cookie_eq_none_iff req "JSESSIONID").mp hc
    have hnot : ∀ before v after, req.cookies = before ++ ("JSESSIONID", v) :: after →
        (∀ p ∈ before, p.1 ≠ "JSESSIONID") → False := by
      intro before v after hreq hbefore
      rw [Request.Cookie_first req "JSESSIONID" v before after hreq hbefore] at hc
      cases hc
    cases hr : RandomText 8 with
    | error err =>
      refine ⟨{ Name := "JSESSIONID", Value := "", Path := "/", MaxAge := 30 },
        by simp [JSessionID, hc, hr, Header.Add], rfl, rfl, rfl, ?_, ?_, ?_⟩
      · intro before v after hreq hbefore
        exact absurd (hnot before v after hreq hbefore) id
      · simpa [JSessionID, hc, hr] using hall
      · intro _
        simp [JSessionID, hc, hr]
    | ok id =>
      refine ⟨{ Name := "JSESSIONID", Value := id, Path := "/", MaxAge := 30 },
        by simp [JSessionID, hc, hr, Header.Add], rfl, rfl, rfl, ?_, ?_, ?_⟩
      · intro before v after hreq hbefore
        exact absurd (hnot before v after hreq hbefore) (fun h => h)
      · simpa [JSessionID, hc, hr] using hall
      · intro _
        simp [JSessionID, hc, hr]
  | some c0 =>
    have hex : ¬ ∀ p ∈ req.cookies, p.1 ≠ "JSESSIONID" := by
      intro hall
      rw [(Request.Cookie_eq_none_iff req "JSESSIONID").mpr hall] at hc
      cases hc
    have hname : c0.Name = "JSESSIONID" := by
      unfold Request.Cookie at hc
      cases hf : req.cookies.find? (fun c => c.1 == "JSESSIONID") with
      | none => simp [hf] at hc
      | some p =>
        simp only [hf, Option.some.injEq] at hc
        have hp := List.find?_some hf
        rw [← hc]
        simpa using hp
    refine ⟨{ c0 with Path := "/", MaxAge := 30 },
      by simp [JSessionID, hc, Header.Add], hname, rfl, rfl, ?_, ?_, ?_⟩
    · intro before v after hreq hbefore
      rw [Request.Cookie_first req "JSESSIONID" v before after hreq hbefore] at hc
      simp only [Option.some.injEq] at hc
      rw [← hc]
      simp [JSessionID, Request.Cookie_first req "JSESSIONID" v before after hreq hbefore]
    · simpa [JSessionID, hc] using hex
    · intro hall
      exact absurd hall hex

/-- C8, as stated, fails: the request below carries a JSESSIONID cookie with
value "zzz", after one with value "abc"; the cookie issued has the value
"abc", so not every carried value is the value issued. -/
theorem later_jsessionid_value_not_issued :
    ("JSESSIONID", "zzz") ∈ reqWithCookie.cookies ∧
    (JSessionID randomTextOk [] reqWithCookie).header =
      [("Set-Cookie", .cookieString
        { Name := "JSESSIONID", Value := "abc", Path := "/", MaxAge := 30 })] ∧
    ¬ (∀ v, ("JSESSIONID", v) ∈ reqWithCookie.cookies →
        ∃ c : Cookie, (JSessionID randomTextOk [] reqWithCookie).header =
          [("Set-Cookie", .cookieString c)] ∧ c.Value = v) := by
  refine ⟨by decide, by decide, ?_⟩
  intro h
  obtain ⟨c, hc, hv⟩ := h "zzz" (by decide)
  have hhead : (JSessionID randomTextOk [] reqWithCookie).header =
      [("Set-Cookie", .cookieString
        { Name := "JSESSIONID", Value := "abc", Path := "/", MaxAge := 30 })] := by decide
  rw [hhead] at hc
  simp only [List.cons.injEq, Prod.mk.injEq, HeaderValue.cookieString.injEq, and_true,
    true_and] at hc
  rw [← hc] at hv
  exact absurd hv (by decide)

/-- C8 amended, at the request carrying JSESSIONID "abc" before JSESSIONID
"zzz": one Set-Cookie is added, with the first value "abc" and Max-Age 30,
and no random text is drawn. -/
theorem jsessionid_cookie_refreshed_witness :
    ∃ c : Cookie,
      (JSessionID randomTextOk [] reqWithCookie).header = [("Set-Cookie", .cookieString c)] ∧
      c.Name = "JSESSIONID" ∧ c.Path = "/" ∧ c.MaxAge = 30 ∧ c.Value = "abc" ∧
      (JSessionID randomTextOk [] reqWithCookie).randomTextCalls = [] := by
  obtain ⟨c, h1, h2, h3, h4, h5, _, _⟩ :=
    jsessionid_cookie_refreshed randomTextOk [] reqWithCookie
  have h := h5 [("theme", "dark")] "abc" [("JSESSIONID", "zzz")] rfl (by decide)
  exact ⟨c, by simpa using h1, h2, h3, h4, h.1, h.2⟩

/-- C8, at three requests: a carried cookie is reissued with its value and no
random text is drawn; without a cookie the random text is the value; when the
random source fails the value is empty and the failure is logged. -/
theorem jsessionid_cookie_refreshed_examples :
    JSessionID randomTextOk [] reqWithCookie =
      { header := [("Set-Cookie", .cookieString
          { Name := "JSESSIONID", Value := "abc", Path := "/", MaxAge := 30 })]
        logs := []
        randomTextCalls := [] } ∧
    JSessionID randomTextOk [] reqWithoutCookie =
      { header := [("Set-Cookie", .cookieString
          { Name := "JSESSIONID", Value := "q1w2e3r4", Path := "/", MaxAge := 30 })]
        logs := []
        randomTextCalls := [8] } ∧
    JSessionID randomTextFails [] reqWithoutCookie =
      { header := [("Set-Cookie", .cookieString
          { Name := "JSESSIONID", Value := "", Path := "/", MaxAge := 30 })]
        logs := [[.str "err", .err (some "entropy unavailable"), .str "msg",
                  .str "generate JSESSIONID"]]
        randomTextCalls := [8] } := by
  decide

end Fleet
